import Mathlib

/-!
Shallow embedding of `src/optimade/validator/validator.py`
(`optimade-python-tools` validator module).

The pydantic response models (`optimade.models`: `InfoResponse`,
`EntryInfoResponse`, `StructureResponseMany`, `StructureResponseOne`) live
outside `src/`; the spec treats them as an opaque "Schema Validator"
collaborator (`validate(json) -> structured object or validation error`),
so serialization is modelled as an abstract oracle parameter, and the
structured objects carry exactly the fields the validator code reads
(`data.attributes.entry_types_by_format` for the base-info model,
`data[].type` / `data[].id` for listings).

Everything else — the retrying client, the `test_case` wrapper, the
pipeline state and all control flow of `ImplementationValidator` — is
translated directly from the Python source, including the places where
that source raises exceptions the wrapper does not catch (unbound name
`test_id`, `False.json()`, `set(None)`, `RESPONSE_CLASSES` key misses).
-/

namespace OptimadeValidator

/-- Python exceptions that can arise in `validator.py`.  The first three
constructors are the kinds the `test_case` decorator catches
(`ResponseError`, pydantic `ValidationError`, `ManualValidationError`);
the rest are ordinary Python runtime errors that propagate uncaught. -/
inductive PyError where
  | responseError (msg : String)
  | validationError (msg : String)
  | manualValidationError (msg : String)
  | nameError (name : String)
  | attributeError (attr : String)
  | typeError (msg : String)
  | keyError (key : String)
  deriving DecidableEq, Repr

/-- `except (ResponseError, ValidationError, ManualValidationError)` in
the `test_case` decorator (validator.py line 83). -/
def isCaught : PyError → Bool
  | .responseError _ => true
  | .validationError _ => true
  | .manualValidationError _ => true
  | _ => false

/-- `type(exc).__name__`, used to build the wrapper's failure message. -/
def errName : PyError → String
  | .responseError _ => "ResponseError"
  | .validationError _ => "ValidationError"
  | .manualValidationError _ => "ManualValidationError"
  | .nameError _ => "NameError"
  | .attributeError _ => "AttributeError"
  | .typeError _ => "TypeError"
  | .keyError _ => "KeyError"

/-- `str(exc)`. -/
def errMsg : PyError → String
  | .responseError m => m
  | .validationError m => m
  | .manualValidationError m => m
  | .nameError n => "name " ++ n ++ " is not defined"
  | .attributeError a => "object has no attribute " ++ a
  | .typeError m => m
  | .keyError k => k

/-- A JSON value, as returned by `response.json()`. -/
inductive JsonVal where
  | null
  | bool (b : Bool)
  | num (n : Int)
  | str (s : String)
  | arr (xs : List JsonVal)
  | obj (kvs : List (String × JsonVal))

/-- Python truthiness of a JSON value (`if not base_info.json():`). -/
def jsonTruthy : JsonVal → Bool
  | .null => false
  | .bool b => b
  | .num n => n != 0
  | .str s => s != ""
  | .arr xs => !xs.isEmpty
  | .obj kvs => !kvs.isEmpty

/-- An HTTP response: status code plus parsed JSON body.  (All scenarios
in the claims involve JSON bodies, so `.json()` never fails to parse.) -/
structure HTTPResponse where
  status_code : Nat
  body : JsonVal

/-- `requests.Response.__bool__` is `self.ok`, i.e. `status_code < 400`;
this is the truthiness used by `if response:` / `if not response:`. -/
def responseTruthy (r : HTTPResponse) : Bool := r.status_code < 400

def MAX_RETRIES : Nat := 5

def BASE_INFO_ENDPOINT : String := "info"

def REQUIRED_ENTRY_ENDPOINTS : List String := ["structures"]

/-- Observable trace of one `Client.get` call: how many HTTP requests
were issued, how many 1-second sleeps happened, and the outcome. -/
structure GetTrace where
  requests : Nat
  sleeps : Nat
  outcome : Except PyError HTTPResponse

/-- The `while retries < MAX_RETRIES` loop of `Client.get`
(validator.py lines 60-71).  `server k` is the response to the `k`-th
issued request (0-based).  Each 429 response causes a 1-second sleep and
another attempt; a non-429 response is returned at once; when the retry
budget is exhausted the `while`'s `else` raises `ResponseError`. -/
def client_get_aux (server : Nat → HTTPResponse) :
    Nat → Nat → Nat → GetTrace
  | 0, reqs, sleeps =>
      ⟨reqs, sleeps, .error (.responseError "Hit max (manual) retries on request.")⟩
  | fuel + 1, reqs, sleeps =>
      let r := server reqs
      if r.status_code ≠ 429 then ⟨reqs + 1, sleeps, .ok r⟩
      else client_get_aux server fuel (reqs + 1) (sleeps + 1)

/-- `Client.get` for a server described by its per-attempt responses. -/
def client_get (server : Nat → HTTPResponse) : GetTrace :=
  client_get_aux server MAX_RETRIES 0 0

/-- A server that answers the first `n` requests with HTTP 429 and every
later request with HTTP 200 (bodies arbitrary). -/
def rlServer (n : Nat) (b429 b200 : JsonVal) : Nat → HTTPResponse :=
  fun k => if k < n then ⟨429, b429⟩ else ⟨200, b200⟩

/-- The value a `test_case`-wrapped call hands back to its caller:
either the wrapped function's own result, or the literal `False` the
wrapper substitutes after catching a recognized error. -/
inductive PyResult (α : Type) where
  | val (a : α)
  | pyFalse

/-- Mutable state of an `ImplementationValidator` instance, as set up in
`__init__` (validator.py lines 123-134), plus the client's
`last_request` and the lines printed by the wrapper. -/
structure VState where
  test_entry_endpoints : List String
  test_id_by_type : List (String × String)
  success_count : Nat
  failure_count : Nat
  verbosity : Nat
  lastRequest : String
  logLines : List String

/-- The state right after `ImplementationValidator.__init__`:
`test_entry_endpoints = set(REQUIRED_ENTRY_ENDPOINTS)`, empty test-ID
registry, zeroed counters. -/
def initState : VState :=
  { test_entry_endpoints := REQUIRED_ENTRY_ENDPOINTS
    test_id_by_type := []
    success_count := 0
    failure_count := 0
    verbosity := 0
    lastRequest := ""
    logLines := [] }

/-- The lines `print_failure` / `print_warning` emit on a failed test:
`✖: <request> - failed with error` followed by each line of the message
indented with a tab (validator.py lines 97-100). -/
def failureLogs (request msg : String) : List String :=
  ("✖: " ++ request ++ " - failed with error") ::
    (msg.splitOn "\n").map (fun line => "\t" ++ line)

/-- The line `print_success` emits on a passed test when verbosity > 0
(validator.py lines 93-94). -/
def successLogs (verbosity : Nat) (request msg : String) : List String :=
  if 0 < verbosity then ["✔: " ++ request ++ " - " ++ msg] else []

/-- The `test_case` decorator (validator.py lines 76-104), applied to
one call of a wrapped method.  `run` is the outcome of the undecorated
body (its `(result, msg)` pair, or the exception it raised);
`truthyFn` is Python truthiness of the result value; `request` is
`args[0].client.last_request`.  The wrapper catches exactly
`(ResponseError, ValidationError, ManualValidationError)`, synthesizing
`result = False`; a truthy result bumps `success_count`, a falsy one
bumps `failure_count` and logs diagnostics; any other exception
propagates with the state untouched. -/
def test_case_apply {α : Type} (truthyFn : α → Bool) (request : String)
    (run : Except PyError (α × String)) (st : VState) :
    VState × Except PyError (PyResult α) :=
  match run with
  | .ok (a, msg) =>
      if truthyFn a then
        ({ st with success_count := st.success_count + 1
                   logLines := st.logLines ++ successLogs st.verbosity request msg },
         .ok (.val a))
      else
        ({ st with failure_count := st.failure_count + 1
                   logLines := st.logLines ++ failureLogs request msg },
         .ok (.val a))
  | .error e =>
      if isCaught e then
        ({ st with failure_count := st.failure_count + 1
                   logLines := st.logLines ++
                     failureLogs request (errName e ++ ": " ++ errMsg e) },
         .ok .pyFalse)
      else (st, .error e)

/-- `test_case_apply` never changes the entry-type set. -/
theorem test_case_apply_endpoints {α : Type} (tf : α → Bool) (req : String)
    (run : Except PyError (α × String)) (st : VState) :
    (test_case_apply tf req run st).1.test_entry_endpoints =
      st.test_entry_endpoints := by
  unfold test_case_apply
  rcases run with e | ⟨a, msg⟩
  · dsimp only
    split <;> rfl
  · dsimp only
    split <;> rfl

/-- `test_case_apply` never changes the test-ID registry. -/
theorem test_case_apply_registry {α : Type} (tf : α → Bool) (req : String)
    (run : Except PyError (α × String)) (st : VState) :
    (test_case_apply tf req run st).1.test_id_by_type =
      st.test_id_by_type := by
  unfold test_case_apply
  rcases run with e | ⟨a, msg⟩
  · dsimp only
    split <;> rfl
  · dsimp only
    split <;> rfl

/-- Modelled from the spec: the validated base-info pydantic model
(`optimade.models.InfoResponse`, not under `src/`).  The validator code
reads exactly `data.attributes.entry_types_by_format`, a mapping from
format name to a list of entry types; `.get "json"` is `Option`-valued
like Python's `dict.get`. -/
structure InfoModel where
  entry_types_by_format : List (String × List String)

/-- One listed entry of a multi-entry response: the `data[i].type` and
`data[i].id` fields the validator reads. -/
structure EntryRef where
  type : String
  id : String

/-- Modelled from the spec: a successfully validated response object.
`optimade.models` response classes are not under `src/`; the spec treats
validation as `validate(json) -> structured object or validation
error`, so only the fields the validator reads are carried. -/
inductive Serialized where
  | info (m : InfoModel)
  | entryInfo
  | many (data : List EntryRef)
  | one

/-- Pydantic model instances are always truthy. -/
def serializedTruthy : Serialized → Bool := fun _ => true

/-- Modelled from the spec: the schema-validation oracle.  Given a
response-class name (from `RESPONSE_CLASSES`) and a JSON body, it either
returns the structured object or fails with a `ValidationError`. -/
def Serializer : Type := String → JsonVal → Except PyError Serialized

/-- `RESPONSE_CLASSES` (validator.py lines 33-40), as a map from request
path to response-class name. -/
def RESPONSE_CLASSES : List (String × String) :=
  [("structures", "StructureResponseMany"),
   ("structures/", "StructureResponseOne"),
   ("calculations", "StructureResponseMany"),
   ("calculations/", "StructureResponseOne"),
   ("info", "InfoResponse"),
   ("info/structures", "EntryInfoResponse")]

/-- `RESPONSE_CLASSES[request_str]`: a Python dict subscript, raising
`KeyError` for a missing key — and that lookup happens outside any
`test_case` wrapper, in `test_info_endpoints` /
`test_multi_entry_endpoint` argument position, so the `KeyError` is
uncaught. -/
def lookupClass (path : String) : Except PyError String :=
  match RESPONSE_CLASSES.lookup path with
  | some cls => .ok cls
  | none => .error (.keyError path)

/-- Python dict subscript `v[k]` on a JSON value: `KeyError` for a
missing key of an object, `TypeError` when the value is not
subscriptable by a string. -/
def jsonIndex (v : JsonVal) (k : String) : Except PyError JsonVal :=
  match v with
  | .obj kvs =>
      match kvs.lookup k with
      | some x => .ok x
      | none => .error (.keyError k)
  | _ => .error (.typeError "value is not subscriptable by a string key")

/-- `base_info.json()["data"]["attributes"]["entry_types_by_format"]["json"]`
(validator.py lines 214-216). -/
def manualExtract (body : JsonVal) : Except PyError JsonVal := do
  let d ← jsonIndex body "data"
  let a ← jsonIndex d "attributes"
  let e ← jsonIndex a "entry_types_by_format"
  jsonIndex e "json"

/-- `set(xs)` over a JSON array of strings.  The wire protocol (spec §6)
requires `entry_types_by_format.json` to be an array of strings; other
element shapes are not modelled and map to a `TypeError`. -/
def strListOf : List JsonVal → Except PyError (List String)
  | [] => .ok []
  | .str s :: rest => (strListOf rest).map (fun l => s :: l)
  | _ :: _ => .error (.typeError "non-string entry type element")

/-- `set(v)` for the JSON value extracted manually: arrays of strings
become string sets; iterating an object yields its keys; `set(None)` and
other non-iterables raise `TypeError`. -/
def pyStrSet : JsonVal → Except PyError (List String)
  | .arr xs => strListOf xs
  | .obj kvs => .ok (kvs.map Prod.fst)
  | _ => .error (.typeError "argument of type NoneType is not iterable")

/-- `self.test_entry_endpoints |= set(l)`: set union, with the existing
elements kept and genuinely new ones appended once. -/
def setUnion (s l : List String) : List String :=
  s ++ (l.filter (fun x => !s.contains x)).dedup

/-- Python dict assignment `d[k] = v`: overwrite the existing mapping
for `k` when present, else append a new one. -/
def dictInsert (d : List (String × String)) (k v : String) :
    List (String × String) :=
  if d.any (fun p => p.1 == k) then
    d.map (fun p => if p.1 == k then (k, v) else p)
  else d ++ [(k, v)]

/-- The undecorated body of `get_endpoint` (validator.py lines 240-248):
issue the request through `Client.get` and raise `ResponseError` on any
non-200 terminal status.  The pipeline's servers are deterministic per
path, so every retry attempt sees the same response. -/
def get_endpoint_fn (server : String → HTTPResponse) (path : String) :
    Except PyError (HTTPResponse × String) :=
  match (client_get (fun _ => server path)).outcome with
  | .error e => .error e
  | .ok r =>
      if r.status_code ≠ 200 then
        .error (.responseError
          ("Request to endpoint " ++ path ++ " returned " ++ toString r.status_code))
      else .ok (r, "request successful.")

/-- `get_endpoint` with its `test_case` decoration.  `Client.get` sets
`last_request` before issuing the request. -/
def get_endpoint_w (server : String → HTTPResponse) (path : String)
    (st : VState) : VState × Except PyError (PyResult HTTPResponse) :=
  let st := { st with lastRequest := path }
  test_case_apply responseTruthy st.lastRequest (get_endpoint_fn server path) st

/-- The undecorated body of `serialize_attempt` (validator.py lines
186-192): `if not response: raise ResponseError("Request failed")`,
then `response_cls(**response.json())`. -/
def serialize_attempt_fn (sz : Serializer) (cls : String)
    (response : PyResult HTTPResponse) : Except PyError (Serialized × String) :=
  match response with
  | .pyFalse => .error (.responseError "Request failed")
  | .val r =>
      if responseTruthy r then
        match sz cls r.body with
        | .ok m => .ok (m, "serialized correctly as " ++ cls)
        | .error e => .error e
      else .error (.responseError "Request failed")

/-- `serialize_attempt` with its `test_case` decoration. -/
def serialize_attempt_w (sz : Serializer) (cls : String)
    (response : PyResult HTTPResponse) (st : VState) :
    VState × Except PyError (PyResult Serialized) :=
  test_case_apply serializedTruthy st.lastRequest
    (serialize_attempt_fn sz cls response) st

/-- The Python value `test_info_endpoints` returns and
`get_available_endpoints` receives as `base_info`: the serialized model
on full success, the raw response when only serialization failed, or
the literal `False` when the request itself failed. -/
inductive BaseInfoArg where
  | model (s : Serialized)
  | rawResponse (r : HTTPResponse)
  | failed

/-- `test_info_endpoints` (validator.py lines 250-257).  Note
`RESPONSE_CLASSES[request_str]` is evaluated in argument position, so a
missing key is an uncaught `KeyError`. -/
def test_info_endpoints_w (sz : Serializer) (server : String → HTTPResponse)
    (path : String) (st : VState) : VState × Except PyError BaseInfoArg :=
  let (st1, resp) := get_endpoint_w server path st
  match resp with
  | .error e => (st1, .error e)
  | .ok .pyFalse => (st1, .ok .failed)
  | .ok (.val r) =>
      if responseTruthy r then
        match lookupClass path with
        | .error e => (st1, .error e)
        | .ok cls =>
            let (st2, ser) := serialize_attempt_w sz cls (.val r) st1
            match ser with
            | .error e => (st2, .error e)
            | .ok .pyFalse => (st2, .ok (.rawResponse r))
            | .ok (.val s) => (st2, .ok (.model s))
      else (st1, .ok .failed)

/-- The undecorated body of `get_available_endpoints` (validator.py
lines 195-237), returning the (possibly already mutated) entry-type set
alongside the result, because the Python code mutates
`self.test_entry_endpoints` before it may raise.

The `for i in [0]: ... break ... else: raise` scaffold is modelled
structurally: every path through the loop body either `break`s or
raises, so the `else` branch on line 224 ("Unable to find any JSON entry
types...") is unreachable and an empty extracted list falls through to
the `return` — where the wrapper then sees a falsy result.

Case by case on `base_info`:
* a serialized `InfoResponse`: `...entry_types_by_format.get("json")`
  yields `None` or the list, then `break`; `set(None)` on line 229
  raises an uncaught `TypeError`;
* any other serialized model: the attribute chain raises
  `AttributeError` (caught by the bare `except Exception`), then
  `base_info.json()` is the model's nonempty JSON string, and indexing
  that string with `"data"` raises `TypeError`, caught on line 218 and
  re-raised as `ResponseError`;
* a raw response: the attribute chain raises `AttributeError` (caught),
  a falsy body raises `ResponseError`, otherwise the manual key chain is
  followed with `KeyError`/`TypeError` re-raised as `ResponseError`;
* the literal `False`: the attribute chain raises `AttributeError`
  (caught), then `False.json()` raises an uncaught `AttributeError`.

After the loop: union into the set, then raise `ResponseError` if
`"info"` is a member. -/
def get_available_fn (base_info : BaseInfoArg) (endpoints : List String) :
    List String × Except PyError (List String × String) :=
  let extracted : Except PyError (Option (List String) ⊕ JsonVal) :=
    match base_info with
    | .model (.info m) => .ok (.inl (m.entry_types_by_format.lookup "json"))
    | .model _ =>
        .error (.responseError
          "Unable to get entry_types_by_format from unserializable base info response.")
    | .rawResponse r =>
        if !jsonTruthy r.body then
          .error (.responseError "Unable to get entry types from base info endpoint")
        else
          match manualExtract r.body with
          | .ok v => .ok (.inr v)
          | .error _ =>
              .error (.responseError
                "Unable to get entry_types_by_format from unserializable base info response.")
    | .failed => .error (.attributeError "json")
  match extracted with
  | .error e => (endpoints, .error e)
  | .ok avail =>
      let setOf : Except PyError (List String) :=
        match avail with
        | .inl none => .error (.typeError "argument of type NoneType is not iterable")
        | .inl (some l) => .ok l
        | .inr v => pyStrSet v
      match setOf with
      | .error e => (endpoints, .error e)
      | .ok s =>
          let eps := setUnion endpoints s
          if eps.contains "info" then
            (eps, .error (.responseError
              "Illegal entry \"info\" was found in entry_types_by_format"))
          else
            (eps, .ok (s, "successfully found available entry types in baseinfo"))

/-- `get_available_endpoints` with its `test_case` decoration: the set
mutation survives even when the body raises a caught error. -/
def get_available_endpoints_w (base_info : BaseInfoArg) (st : VState) :
    VState × Except PyError (PyResult (List String)) :=
  let (eps, r) := get_available_fn base_info st.test_entry_endpoints
  test_case_apply (fun l => !l.isEmpty) st.lastRequest r
    { st with test_entry_endpoints := eps }

/-- The undecorated body of `get_single_id_from_multi_endpoint`
(validator.py lines 265-278), returning the (possibly updated) test-ID
registry alongside the result.  A truthy serialized response with a
nonempty `data` stores `data[0].id` under key `data[0].type`; an empty
`data` or a falsy `serialized` raises `ResponseError`; a truthy object
without a `data` attribute would raise an uncaught `AttributeError`. -/
def get_single_id_fn (serialized : PyResult Serialized)
    (reg : List (String × String)) :
    List (String × String) × Except PyError (String × String) :=
  match serialized with
  | .val (.many (d :: _)) =>
      (dictInsert reg d.type d.id,
       .ok (d.id, "successfully scraped test ID from " ++ d.type ++ " endpoint"))
  | .val (.many []) =>
      (reg, .error (.responseError "No entries found under endpoint to scrape ID from."))
  | .pyFalse =>
      (reg, .error (.responseError "No entries found under endpoint to scrape ID from."))
  | .val _ => (reg, .error (.attributeError "data"))

/-- `get_single_id_from_multi_endpoint` with its `test_case`
decoration; the result value is the scraped ID string, falsy only when
empty. -/
def get_single_id_w (serialized : PyResult Serialized) (st : VState) :
    VState × Except PyError (PyResult String) :=
  let (reg, r) := get_single_id_fn serialized st.test_id_by_type
  test_case_apply (fun s => s != "") st.lastRequest r
    { st with test_id_by_type := reg }

/-- `test_multi_entry_endpoint` (validator.py lines 259-262): the
response — even a synthesized `False` — is passed on into
`serialize_attempt`, and the scrape step follows unconditionally. -/
def test_multi_entry_w (sz : Serializer) (server : String → HTTPResponse)
    (endp : String) (st : VState) : VState × Except PyError Unit :=
  let (st1, resp) := get_endpoint_w server endp st
  match resp with
  | .error e => (st1, .error e)
  | .ok response =>
      match lookupClass endp with
      | .error e => (st1, .error e)
      | .ok cls =>
          let (st2, ser) := serialize_attempt_w sz cls response st1
          match ser with
          | .error e => (st2, .error e)
          | .ok serialized =>
              let (st3, r) := get_single_id_w serialized st2
              match r with
              | .error e => (st3, .error e)
              | .ok _ => (st3, .ok ())

/-- `test_single_entry_endpoint` (validator.py lines 280-284): a type
absent from the test-ID registry is skipped outright; for a present
type the source interpolates the unbound name `test_id` into the
request path, so a `NameError` is raised before any request is issued
and the rest of the body is unreachable. -/
def test_single_entry_w (t : String) (st : VState) :
    VState × Except PyError Unit :=
  if (st.test_id_by_type.lookup t).isSome then
    (st, .error (.nameError "test_id"))
  else (st, .ok ())

/-- A `for endp in self.test_entry_endpoints:` stage loop: run the step
for each entry type in order, stopping only when a step raises an
uncaught exception. -/
def run_stage (f : String → VState → VState × Except PyError Unit) :
    List String → VState → VState × Except PyError Unit
  | [], st => (st, .ok ())
  | e :: rest, st =>
      match f e st with
      | (st1, .ok _) => run_stage f rest st1
      | (st1, .error err) => (st1, .error err)

/-- `ImplementationValidator.main` (validator.py lines 151-183): base
info test, endpoint discovery, then the per-type info, multi-entry and
single-entry loops, each over the current working entry-type set.  An
uncaught exception anywhere aborts with the state reached so far. -/
def main_fn (sz : Serializer) (server : String → HTTPResponse)
    (st : VState) : VState × Except PyError Unit :=
  let (st1, base_info) := test_info_endpoints_w sz server BASE_INFO_ENDPOINT st
  match base_info with
  | .error e => (st1, .error e)
  | .ok arg =>
      let (st2, r2) := get_available_endpoints_w arg st1
      match r2 with
      | .error e => (st2, .error e)
      | .ok _ =>
          let (st3, r3) := run_stage
            (fun endp s =>
              let (s1, r) := test_info_endpoints_w sz server
                (BASE_INFO_ENDPOINT ++ "/" ++ endp) s
              match r with
              | .ok _ => (s1, .ok ())
              | .error e => (s1, .error e))
            st2.test_entry_endpoints st2
          match r3 with
          | .error e => (st3, .error e)
          | .ok _ =>
              let (st4, r4) := run_stage (test_multi_entry_w sz server)
                st3.test_entry_endpoints st3
              match r4 with
              | .error e => (st4, .error e)
              | .ok _ => run_stage test_single_entry_w st4.test_entry_endpoints st4

/-- What the `__main__` block observes: final counters, the `valid`
flag, and the shell exit code. -/
structure RunResult where
  success : Nat
  failure : Nat
  valid : Option Bool
  exit : Nat
  deriving DecidableEq, Repr

/-- A full process run (validator.py lines 295-308): `main()` under a
catch-all, `valid = not bool(failure_count)` only when `main` finishes,
then the exit-code mapping `None → 2`, `False → 1`, `True → 0`. -/
def run_validator (sz : Serializer) (server : String → HTTPResponse) :
    RunResult :=
  match main_fn sz server initState with
  | (st, .ok _) =>
      let v := st.failure_count = 0
      ⟨st.success_count, st.failure_count, some v, if v then 0 else 1⟩
  | (st, .error _) => ⟨st.success_count, st.failure_count, none, 2⟩

/-- Scenario A base-info body:
`{"data":{"attributes":{"entry_types_by_format":{"json":["structures"]}}}}`. -/
def infoBodyA : JsonVal :=
  .obj [("data", .obj [("attributes", .obj [("entry_types_by_format",
    .obj [("json", .arr [.str "structures"])])])])]

/-- Scenario A listing body: one entry with type `structures`, id `abc`. -/
def listingBodyA : JsonVal :=
  .obj [("data", .arr [.obj [("type", .str "structures"), ("id", .str "abc")]])]

/-- Scenario A server: HTTP 200 with schema-conformant bodies on every
endpoint the pipeline visits, 404 elsewhere. -/
def serverA (path : String) : HTTPResponse :=
  if path = "info" then ⟨200, infoBodyA⟩
  else if path = "info/structures" then ⟨200, .obj [("data", .obj [("description", .str "a structure")])]⟩
  else if path = "structures" then ⟨200, listingBodyA⟩
  else if path = "structures/abc" then ⟨200, .obj [("data", .obj [("type", .str "structures"), ("id", .str "abc")])]⟩
  else ⟨404, .null⟩

/-- Modelled from the spec: the validation oracle for scenario A, where
every body is schema-conformant, the base info advertises
`{"json": ["structures"]}` and the listing holds the single entry
`(structures, abc)`. -/
def szA : Serializer := fun cls _ =>
  if cls = "InfoResponse" then .ok (.info ⟨[("json", ["structures"])]⟩)
  else if cls = "EntryInfoResponse" then .ok .entryInfo
  else if cls = "StructureResponseMany" then .ok (.many [⟨"structures", "abc"⟩])
  else if cls = "StructureResponseOne" then .ok .one
  else .error (.validationError "unknown response class")

/-- Scenario B server: `info` answers HTTP 500, everything else is
normal. -/
def serverB (path : String) : HTTPResponse :=
  if path = "info" then ⟨500, .null⟩ else serverA path

/-- Modelled from the spec: a validation oracle whose base-info model
carries an `entry_types_by_format` without a `"json"` key. -/
def szNoJson : Serializer := fun cls body =>
  if cls = "InfoResponse" then .ok (.info ⟨[("yaml", ["structures"])]⟩)
  else szA cls body

/-- Modelled from the spec: a validation oracle whose base-info model
advertises the illegal entry type `info`. -/
def szInfoListed : Serializer := fun cls body =>
  if cls = "InfoResponse" then .ok (.info ⟨[("json", ["info"])]⟩)
  else szA cls body

end OptimadeValidator

namespace OptimadeValidator

/-- C3: for a GET answered by N consecutive 429 responses then a 200,
`Client.get` returns the 200 response after exactly N sleeps (and N+1
requests) when N < 5; when N ≥ 5 it raises the retry-exhausted
`ResponseError` after exactly 5 requests, never issuing a 6th. -/
theorem c3_retry_behavior (n : Nat) (b429 b200 : JsonVal) :
    (n < 5 →
      client_get (rlServer n b429 b200) = ⟨n + 1, n, .ok ⟨200, b200⟩⟩) ∧
    (5 ≤ n →
      client_get (rlServer n b429 b200) =
        ⟨5, 5, .error (.responseError "Hit max (manual) retries on request.")⟩) := by
  constructor
  · intro h
    interval_cases n <;> rfl
  · intro h
    have h0 : 0 < n := by omega
    have h1 : 1 < n := by omega
    have h2 : 2 < n := by omega
    have h3 : 3 < n := by omega
    have h4 : 4 < n := by omega
    simp [client_get, MAX_RETRIES, client_get_aux, rlServer, h0, h1, h2, h3, h4]

/-- Witness for C3 at N = 2 and N = 7. -/
theorem c3_retry_behavior_witness :
    client_get (rlServer 2 .null .null) = ⟨3, 2, .ok ⟨200, .null⟩⟩ ∧
    client_get (rlServer 7 .null .null) =
      ⟨5, 5, .error (.responseError "Hit max (manual) retries on request.")⟩ :=
  ⟨(c3_retry_behavior 2 .null .null).1 (by decide),
   (c3_retry_behavior 7 .null .null).2 (by decide)⟩

/-- A state in which the Test-ID Registry maps `structures` to `abc`. -/
def c1State : VState := { initState with test_id_by_type := [("structures", "abc")] }

/-- C1: the skip half of the claim holds — an entry type absent from
the Test-ID Registry is skipped with the whole state (both counters
included) unchanged — but for a type present in the registry the code
does not issue `GET <type>/<id>` with the scraped ID: it raises
`NameError` on the unbound name `test_id`, aborting the run. -/
theorem c1_single_entry_name_error :
    test_single_entry_w "structures" c1State =
      (c1State, .error (.nameError "test_id")) ∧
    test_single_entry_w "calculations" c1State = (c1State, .ok ()) :=
  ⟨rfl, rfl⟩

/-- C2 counterexample: on scenario A the run does not end with
`failures = 0 ∧ successes = 4 ∧ exit code 0`. -/
theorem c2_scenario_a_counterexample :
    ¬((run_validator szA serverA).failure = 0 ∧
      (run_validator szA serverA).success = 4 ∧
      (run_validator szA serverA).exit = 0) := by
  decide

/-- C2 (amended): on scenario A the run records 0 failures and 8
successes (each `test_case`-wrapped call counts one: base-info GET and
serialization, discovery, per-type info GET and serialization,
multi-entry GET, serialization and ID scrape), then aborts in the
single-entry stage with an unhandled `NameError` on the unbound name
`test_id`, leaving validity unknown and exiting with code 2. -/
theorem c2_scenario_a_amended :
    run_validator szA serverA = ⟨8, 0, none, 2⟩ ∧
    (main_fn szA serverA initState).2 = .error (.nameError "test_id") :=
  ⟨rfl, rfl⟩

/-- C4: when the discovered list is `["info"]`, stage 1 does record a
counted failure with a falsy result, but `info` IS unioned into the
working entry-type set before the illegality check and is never removed
— and the later per-type info stage's response-class lookup for
`info/info` raises an uncaught `KeyError`. -/
theorem c4_info_pollution :
    "info" ∈ (get_available_endpoints_w (.model (.info ⟨[("json", ["info"])]⟩))
        initState).1.test_entry_endpoints ∧
    (get_available_endpoints_w (.model (.info ⟨[("json", ["info"])]⟩))
        initState).1.failure_count = 1 ∧
    (get_available_endpoints_w (.model (.info ⟨[("json", ["info"])]⟩))
        initState).1.success_count = 0 ∧
    (get_available_endpoints_w (.model (.info ⟨[("json", ["info"])]⟩))
        initState).2 = .ok .pyFalse ∧
    lookupClass ("info/" ++ "info") = .error (.keyError "info/info") := by
  exact ⟨by decide, rfl, rfl, rfl, rfl⟩

/-- C5: when `info` answers HTTP 500, the base-info test is the one
counted failure, but the pipeline does not go on to stages 2-4: the
discovery step calls `.json()` on the literal `False` that the failed
base-info test returned, raising an uncaught `AttributeError`, so the
run aborts with 0 successes and exits with code 2 (validity unknown),
not 1. -/
theorem c5_info_500_abort :
    run_validator szA serverB = ⟨0, 1, none, 2⟩ ∧
    (main_fn szA serverB initState).2 = .error (.attributeError "json") :=
  ⟨rfl, rfl⟩

/-- Raw base-info body whose JSON-format entry list is empty. -/
def rawEmptyBody : JsonVal :=
  .obj [("data", .obj [("attributes", .obj [("entry_types_by_format",
    .obj [("json", .arr [])])])])]

/-- C6: an empty JSON-format entry-type list makes the discovery step a
counted failure, not a success, on both paths: the schema-validated
path (`.get("json")` returns `[]`) and the manual-extraction fallback
(raw body with `"json": []`) — the wrapper treats the empty-list result
as falsy and increments the failure counter. -/
theorem c6_empty_list_failure :
    (get_available_endpoints_w (.model (.info ⟨[("json", [])]⟩))
        initState).1.failure_count = 1 ∧
    (get_available_endpoints_w (.model (.info ⟨[("json", [])]⟩))
        initState).1.success_count = 0 ∧
    (get_available_endpoints_w (.model (.info ⟨[("json", [])]⟩))
        initState).2 = .ok (.val []) ∧
    (get_available_endpoints_w (.rawResponse ⟨200, rawEmptyBody⟩)
        initState).1.failure_count = 1 ∧
    (get_available_endpoints_w (.rawResponse ⟨200, rawEmptyBody⟩)
        initState).1.success_count = 0 ∧
    (get_available_endpoints_w (.rawResponse ⟨200, rawEmptyBody⟩)
        initState).2 = .ok (.val []) :=
  ⟨rfl, rfl, rfl, rfl, rfl, rfl⟩

theorem mem_setUnion (s l : List String) (x : String) :
    x ∈ setUnion s l ↔ x ∈ s ∨ x ∈ l := by
  constructor
  · intro h
    rcases List.mem_append.mp h with h | h
    · exact Or.inl h
    · exact Or.inr (List.mem_filter.mp (List.mem_dedup.mp h)).1
  · intro h
    by_cases hs : x ∈ s
    · exact List.mem_append.mpr (Or.inl hs)
    · rcases h with h | h
      · exact absurd h hs
      · refine List.mem_append.mpr (Or.inr (List.mem_dedup.mpr
          (List.mem_filter.mpr ⟨h, ?_⟩)))
        simp only [Bool.not_eq_true']
        cases hb : s.contains x
        · rfl
        · exact absurd (List.elem_iff.mp hb) hs

theorem get_available_fn_model_some (etbf : List (String × List String))
    (L : List String) (endpoints : List String)
    (hjson : etbf.lookup "json" = some L) :
    get_available_fn (.model (.info ⟨etbf⟩)) endpoints =
      (setUnion endpoints L,
       if (setUnion endpoints L).contains "info" then
         .error (.responseError
           "Illegal entry \"info\" was found in entry_types_by_format")
       else .ok (L, "successfully found available entry types in baseinfo")) := by
  unfold get_available_fn
  simp only [hjson]
  split <;> simp_all

/-- C7: for every well-formed base-info response whose validated model
carries a non-empty JSON-format entry-type list L, the working
entry-type set immediately after stage 1 equals the baseline
`{"structures"}` unioned with the elements of L (whether or not the
illegality check then raises). -/
theorem c7_working_set_union (etbf : List (String × List String))
    (L : List String) (hjson : etbf.lookup "json" = some L) (_hne : L ≠ [])
    (x : String) :
    x ∈ (get_available_endpoints_w (.model (.info ⟨etbf⟩))
        initState).1.test_entry_endpoints ↔
      x = "structures" ∨ x ∈ L := by
  unfold get_available_endpoints_w
  rw [show initState.test_entry_endpoints = REQUIRED_ENTRY_ENDPOINTS from rfl,
    get_available_fn_model_some etbf L REQUIRED_ENTRY_ENDPOINTS hjson]
  rw [test_case_apply_endpoints]
  simp [mem_setUnion, REQUIRED_ENTRY_ENDPOINTS]

/-- Witness for C7 with L = `["structures", "calculations"]` at
x = `"calculations"`. -/
theorem c7_working_set_union_witness :
    "calculations" ∈ (get_available_endpoints_w
        (.model (.info ⟨[("json", ["structures", "calculations"])]⟩))
        initState).1.test_entry_endpoints ↔
      "calculations" = "structures" ∨
        "calculations" ∈ ["structures", "calculations"] :=
  c7_working_set_union [("json", ["structures", "calculations"])]
    ["structures", "calculations"] rfl (by decide) "calculations"

theorem dictInsert_cons_ne (p : String × String) (t : List (String × String))
    (k v : String) (hp : p.1 ≠ k) :
    dictInsert (p :: t) k v = p :: dictInsert t k v := by
  unfold dictInsert
  cases ht : t.any (fun q => q.1 == k) <;> simp [List.any_cons, hp, ht]

theorem dictInsert_cons_eq (p : String × String) (t : List (String × String))
    (k v : String) (hp : p.1 = k) :
    dictInsert (p :: t) k v =
      (k, v) :: t.map (fun q => if q.1 == k then (k, v) else q) := by
  unfold dictInsert
  simp [List.any_cons, hp]

theorem dictInsert_lookup (k v : String) :
    ∀ d : List (String × String), (dictInsert d k v).lookup k = some v := by
  intro d
  induction d with
  | nil => simp [dictInsert, List.lookup]
  | cons p t ih =>
      by_cases hp : p.1 = k
      · rw [dictInsert_cons_eq p t k v hp]
        simp [List.lookup]
      · rw [dictInsert_cons_ne p t k v hp]
        have hk : (k == p.1) = false := beq_eq_false_iff_ne.mpr (Ne.symm hp)
        simp [List.lookup, hk, ih]

theorem dictInsert_count (k v : String) :
    ∀ d : List (String × String), (d.map Prod.fst).Nodup →
      ((dictInsert d k v).filter (fun p => p.1 == k)).length = 1 := by
  intro d
  induction d with
  | nil => intro _; simp [dictInsert]
  | cons p t ih =>
      intro hnd
      rw [List.map_cons, List.nodup_cons] at hnd
      by_cases hp : p.1 = k
      · rw [dictInsert_cons_eq p t k v hp]
        have htail :
            (t.map (fun q => if q.1 == k then (k, v) else q)).filter
              (fun q => q.1 == k) = [] := by
          rw [List.filter_eq_nil_iff]
          intro x hx
          rw [List.mem_map] at hx
          obtain ⟨q, hq, hqx⟩ := hx
          have hqne : q.1 ≠ k := by
            intro hqk
            have hmem : q.1 ∈ t.map Prod.fst := List.mem_map_of_mem Prod.fst hq
            rw [hqk, ← hp] at hmem
            exact hnd.1 hmem
          rw [if_neg (by simp [hqne])] at hqx
          subst hqx
          simp [hqne]
        simp only [List.filter_cons, htail, beq_self_eq_true, cond_true]
        rfl
      · rw [dictInsert_cons_ne p t k v hp]
        have hp' : (p.1 == k) = false := beq_eq_false_iff_ne.mpr hp
        simp only [List.filter_cons, hp', cond_false]
        exact ih hnd.2

/-- C8: a multi-entry listing that validates with at least one result
leaves the Test-ID Registry with exactly one mapping for the first
entry's type, equal to the first entry's id (given the registry's
dict-invariant of pairwise-distinct keys); a listing that validates
with zero results creates no mapping and increments the failure
counter while leaving the success counter alone. -/
theorem c8_registry_scrape (d : EntryRef) (rest : List EntryRef)
    (reg : List (String × String)) (hnd : (reg.map Prod.fst).Nodup)
    (st : VState) :
    ((get_single_id_fn (.val (.many (d :: rest))) reg).1.lookup d.type =
        some d.id ∧
      ((get_single_id_fn (.val (.many (d :: rest))) reg).1.filter
        (fun p => p.1 == d.type)).length = 1 ∧
      (get_single_id_fn (.val (.many (d :: rest))) reg).2 =
        .ok (d.id, "successfully scraped test ID from " ++ d.type ++ " endpoint")) ∧
    ((get_single_id_w (.val (.many [])) st).1.test_id_by_type =
        st.test_id_by_type ∧
      (get_single_id_w (.val (.many [])) st).1.failure_count =
        st.failure_count + 1 ∧
      (get_single_id_w (.val (.many [])) st).1.success_count =
        st.success_count) := by
  refine ⟨⟨?_, ?_, rfl⟩, rfl, rfl, rfl⟩
  · exact dictInsert_lookup d.type d.id reg
  · exact dictInsert_count d.type d.id reg hnd

/-- Witness for C8 with the listing `[(structures, abc)]` and an empty
starting registry. -/
theorem c8_registry_scrape_witness :
    ((get_single_id_fn (.val (.many [⟨"structures", "abc"⟩])) []).1.lookup
        "structures" = some "abc" ∧
      ((get_single_id_fn (.val (.many [⟨"structures", "abc"⟩])) []).1.filter
        (fun p => p.1 == "structures")).length = 1 ∧
      (get_single_id_fn (.val (.many [⟨"structures", "abc"⟩])) []).2 =
        .ok ("abc", "successfully scraped test ID from " ++ "structures" ++ " endpoint")) ∧
    ((get_single_id_w (.val (.many [])) initState).1.test_id_by_type =
        initState.test_id_by_type ∧
      (get_single_id_w (.val (.many [])) initState).1.failure_count =
        initState.failure_count + 1 ∧
      (get_single_id_w (.val (.many [])) initState).1.success_count =
        initState.success_count) :=
  c8_registry_scrape ⟨"structures", "abc"⟩ [] [] (by simp) initState

/-- C9: the `test_case` wrapper catches exactly the three recognized
error kinds — on any of them it returns the synthesized `False`,
increments only the failure counter and logs the failing request URL
followed by the tab-indented error message lines; on a truthy result it
increments only the success counter; every other exception kind
propagates out of the wrapper with the state (both counters included)
completely untouched. -/
theorem c9_wrapper_behavior {α : Type} (tf : α → Bool) (req : String)
    (run : Except PyError (α × String)) (st : VState) :
    (∀ e, run = .error e → isCaught e = true →
      test_case_apply tf req run st =
        ({ st with failure_count := st.failure_count + 1
                   logLines := st.logLines ++
                     failureLogs req (errName e ++ ": " ++ errMsg e) },
         .ok .pyFalse)) ∧
    (∀ a msg, run = .ok (a, msg) → tf a = true →
      test_case_apply tf req run st =
        ({ st with success_count := st.success_count + 1
                   logLines := st.logLines ++ successLogs st.verbosity req msg },
         .ok (.val a))) ∧
    (∀ e, run = .error e → isCaught e = false →
      test_case_apply tf req run st = (st, .error e)) ∧
    (∀ m, isCaught (.responseError m) = true ∧
      isCaught (.validationError m) = true ∧
      isCaught (.manualValidationError m) = true ∧
      isCaught (.nameError m) = false ∧ isCaught (.attributeError m) = false ∧
      isCaught (.typeError m) = false ∧ isCaught (.keyError m) = false) := by
  refine ⟨?_, ?_, ?_, ?_⟩
  · intro e he hc
    subst he
    simp [test_case_apply, hc]
  · intro a msg he ht
    subst he
    simp [test_case_apply, ht]
  · intro e he hc
    subst he
    simp [test_case_apply, hc]
  · intro m
    exact ⟨rfl, rfl, rfl, rfl, rfl, rfl, rfl⟩

/-- Witness for C9: a caught `ValidationError` at a concrete call. -/
theorem c9_wrapper_behavior_witness :
    test_case_apply (fun _ : Nat => true) "u"
        (.error (.validationError "bad")) initState =
      ({ initState with failure_count := initState.failure_count + 1
                        logLines := initState.logLines ++
                          failureLogs "u" (errName (.validationError "bad") ++ ": " ++
                            errMsg (.validationError "bad")) },
       .ok .pyFalse) :=
  (c9_wrapper_behavior (fun _ : Nat => true) "u"
    (.error (.validationError "bad")) initState).1 (.validationError "bad") rfl rfl

/-- C10: when the validated base-info model's `entry_types_by_format`
lacks a `"json"` key, `dict.get` yields `None` and `set(None)` raises a
`TypeError` that the wrapper does not catch: the step leaves the state
untouched (no counted failure) and the full run aborts after the two
base-info successes with validity unknown and exit code 2. -/
theorem c10_missing_json_key_abort :
    get_available_endpoints_w (.model (.info ⟨[("yaml", ["structures"])]⟩))
        initState =
      (initState, .error (.typeError "argument of type NoneType is not iterable")) ∧
    isCaught (.typeError "argument of type NoneType is not iterable") = false ∧
    run_validator szNoJson serverA = ⟨2, 0, none, 2⟩ ∧
    (main_fn szNoJson serverA initState).2 =
      .error (.typeError "argument of type NoneType is not iterable") :=
  ⟨rfl, rfl, rfl, rfl⟩

end OptimadeValidator
